import Mathlib

/-!
Shallow embedding of the rknpu-driver crate (RK3588 NPU driver).

The embedding models the driver's observable behaviour as explicit event
traces: every memory-mapped register write, power-domain transition, delay
and cache-maintenance call performed by an operation is recorded, in program
order, in a `List Event`.  Pure computations (data-amount arithmetic,
task-control encoding, reset-register encoding, address alignment) are
translated directly from `src/rknpu_dev.rs`, `src/types.rs` and
`src/configs.rs`.  Machine integers are modelled as `Nat` with explicit
`% 2^32` / `% 2^64` at the points where the Rust code performs a narrowing
cast or where an arithmetic operation can exceed the machine width.

External inputs are passed as oracles: task-descriptor memory is a function
from descriptor index to descriptor, the DMA-to-kernel translation is a
function parameter (as in the source), and the interrupt-status register is
a function from poll number to the value read.  Register reads that only
feed debug logging are not traced; the poll-loop reads of `int_status` are
traced as `Event.pollStatus` events.
-/

/-- Error kinds of the driver.  `src/types.rs` declares
`DomainNotFound, Timeout, UnsupportedVersion, InvalidInput, HardwareError`;
`src/rknpu_dev.rs` additionally uses `InvalidTaskAddress`, `TaskTimeout` and
`NoInterrupt` (the spec lists all of these as error kinds), so the model
carries the union. -/
inductive RkNpuError where
  | DomainNotFound
  | Timeout
  | UnsupportedVersion
  | InvalidInput
  | HardwareError
  | InvalidTaskAddress
  | TaskTimeout
  | NoInterrupt
  deriving DecidableEq, Repr

/-- NPU-core register block fields, from `src/registers/mod.rs`. -/
inductive CoreReg where
  | version
  | version_num
  | pc_op_en
  | pc_data_addr
  | pc_data_amount
  | int_mask
  | int_clear
  | int_status
  | int_raw_status
  | pc_task_control
  | pc_dma_base_addr
  | pc_task_status
  | clr_all_rw_amount
  | dt_wr_amount
  | dt_rd_amount
  | wt_rd_amount
  | enable_mask
  deriving DecidableEq, Repr

/-- Power domains used by the driver (`src/rknpu_dev.rs`): NPU = PD(8),
NPUTOP = PD(9), NPU1 = PD(10), NPU2 = PD(11). -/
inductive PDom where
  | NPU
  | NPUTOP
  | NPU1
  | NPU2
  deriving DecidableEq, Repr

/-- The PD number of a power domain, as in the `PD(_)` constants. -/
def PDom.num : PDom → Nat
  | .NPU => 8
  | .NPUTOP => 9
  | .NPU1 => 10
  | .NPU2 => 11

/-- Observable actions of the driver, recorded in program order.
`dcacheFlush`/`dcacheInv` record a call to the corresponding cache-range
primitive (start, size); `dcFlushLine`/`dcInvLine` record the individual
cache-line operations inside those primitives; `dsb`/`isb` record the
barriers; `pollStatus` records one read of `int_status` by the completion
poll loop together with the value read; `spin` records the busy-wait hint
loop between polls. -/
inductive Event where
  | coreWrite (r : CoreReg) (v : Nat)
  | cruWrite (v : Nat)
  | pdOn (d : PDom)
  | pdOff (d : PDom)
  | delayUs (us : Nat)
  | dcacheFlush (start size : Nat)
  | dcacheInv (start size : Nat)
  | dcFlushLine (addr : Nat)
  | dcInvLine (addr : Nat)
  | dsb
  | isb
  | pollStatus (v : Nat)
  | spin (n : Nat)
  deriving DecidableEq, Repr

/-- Board variants, from `src/types.rs`. -/
inductive RkBoard where
  | Rk3588
  | Rk3568
  | Rv1106
  | Rk3562
  | Rk3583
  deriving DecidableEq, Repr

/-- Per-chip hardware configuration, from `src/configs.rs`. -/
structure RknpuConfig where
  bw_priority_addr : Nat
  bw_priority_length : Nat
  dma_mask_bits : Nat
  pc_data_amount_scale : Nat
  pc_task_number_bits : Nat
  pc_task_number_mask : Nat
  pc_task_status_offset : Nat
  pc_dma_ctrl : Nat
  bw_enable : Bool
  num_irqs : Nat
  num_resets : Nat
  nbuf_phyaddr : Nat
  nbuf_size : Nat
  max_submit_number : Nat
  core_mask : Nat
  deriving DecidableEq, Repr

/-- `RknpuConfig::RK3562` from `src/configs.rs`. -/
def RknpuConfig.RK3562 : RknpuConfig :=
  { bw_priority_addr := 0x0, bw_priority_length := 0x0, dma_mask_bits := 40
    pc_data_amount_scale := 2, pc_task_number_bits := 16
    pc_task_number_mask := 0xffff, pc_task_status_offset := 0x48
    pc_dma_ctrl := 1, bw_enable := true, num_irqs := 1, num_resets := 1
    nbuf_phyaddr := 0xfe400000, nbuf_size := 256 * 1024
    max_submit_number := (1 <<< 16) - 1, core_mask := 0x1 }

/-- `RknpuConfig::RK3568` from `src/configs.rs`. -/
def RknpuConfig.RK3568 : RknpuConfig :=
  { bw_priority_addr := 0xfe180008, bw_priority_length := 0x10
    dma_mask_bits := 32, pc_data_amount_scale := 1, pc_task_number_bits := 12
    pc_task_number_mask := 0xfff, pc_task_status_offset := 0x3c
    pc_dma_ctrl := 0, bw_enable := true, num_irqs := 1, num_resets := 1
    nbuf_phyaddr := 0, nbuf_size := 0
    max_submit_number := (1 <<< 12) - 1, core_mask := 0x1 }

/-- `RknpuConfig::RK3583` from `src/configs.rs`. -/
def RknpuConfig.RK3583 : RknpuConfig :=
  { bw_priority_addr := 0x0, bw_priority_length := 0x0, dma_mask_bits := 40
    pc_data_amount_scale := 2, pc_task_number_bits := 12
    pc_task_number_mask := 0xfff, pc_task_status_offset := 0x3c
    pc_dma_ctrl := 0, bw_enable := false, num_irqs := 2, num_resets := 2
    nbuf_phyaddr := 0, nbuf_size := 0
    max_submit_number := (1 <<< 12) - 1, core_mask := 0x3 }

/-- `RknpuConfig::RK3588` from `src/configs.rs`. -/
def RknpuConfig.RK3588 : RknpuConfig :=
  { bw_priority_addr := 0x0, bw_priority_length := 0x0, dma_mask_bits := 40
    pc_data_amount_scale := 2, pc_task_number_bits := 12
    pc_task_number_mask := 0xfff, pc_task_status_offset := 0x3c
    pc_dma_ctrl := 0, bw_enable := false, num_irqs := 3, num_resets := 3
    nbuf_phyaddr := 0, nbuf_size := 0
    max_submit_number := (1 <<< 12) - 1, core_mask := 0x7 }

/-- `RknpuConfig::RV1106` from `src/configs.rs`. -/
def RknpuConfig.RV1106 : RknpuConfig :=
  { bw_priority_addr := 0x0, bw_priority_length := 0x0, dma_mask_bits := 32
    pc_data_amount_scale := 2, pc_task_number_bits := 16
    pc_task_number_mask := 0xffff, pc_task_status_offset := 0x3c
    pc_dma_ctrl := 0, bw_enable := true, num_irqs := 1, num_resets := 1
    nbuf_phyaddr := 0, nbuf_size := 0
    max_submit_number := (1 <<< 16) - 1, core_mask := 0x1 }

/-- `RknpuConfig::from_board` from `src/configs.rs`. -/
def RknpuConfig.from_board : RkBoard → RknpuConfig
  | .Rk3588 => RknpuConfig.RK3588
  | .Rk3568 => RknpuConfig.RK3568
  | .Rv1106 => RknpuConfig.RV1106
  | .Rk3562 => RknpuConfig.RK3562
  | .Rk3583 => RknpuConfig.RK3583

/-- `INT_CLEAR_VALUE` from `src/configs.rs`. -/
def INT_CLEAR_VALUE : Nat := 0x1ffff

/-- `RK3588_NPU_VERSION` from `src/configs.rs`. -/
def RK3588_NPU_VERSION : Nat := 0x46495245

/-- `cru_softrst::NPU0_AXI_SRST` from `src/configs.rs`. -/
def NPU0_AXI_SRST : Nat := 0

/-- `cru_softrst::NPU0_AHB_SRST` from `src/configs.rs`. -/
def NPU0_AHB_SRST : Nat := 1

/-- `cru_softrst::WRITE_MASK_SHIFT` from `src/configs.rs`. -/
def WRITE_MASK_SHIFT : Nat := 16

/-- The fields of the hardware task descriptor (`rk3588_rs::RknpuTask`)
read by `job_commit_pc`: `regcmd_addr` is a 64-bit command-buffer physical
address, the others are 32-bit values. -/
structure RknpuTask where
  regcmd_addr : Nat
  regcfg_amount : Nat
  int_clear : Nat
  int_mask : Nat
  deriving DecidableEq, Repr

/-- The fields of the submission request (`rk3588_rs::RknpuSubmit`) used by
`rknpu_submit_ioctl` and `job_commit_pc` (all 32-bit except the 64-bit
`task_obj_addr`). -/
structure RknpuSubmit where
  flags : Nat
  timeout : Nat
  task_start : Nat
  task_number : Nat
  task_obj_addr : Nat
  deriving DecidableEq, Repr

/-- Addresses visited by the cache-line loop of
`dcache_flush_range` / `dcache_invalidate_range`: starting from `addr`
(already aligned by the caller), step by 64 while below `e`. -/
def lineAddrs (addr e : Nat) : List Nat :=
  if addr < e then addr :: lineAddrs (addr + 64) e else []
  termination_by e - addr
  decreasing_by omega

/-- `dcache_flush_range` from `src/rknpu_dev.rs`: align `start` down with
`& !0x3F` (on a 64-bit `usize` the mask is `2^64 - 64`), issue a `dc cvac`
per 64-byte line while below `start + size`, then `dsb ish; isb`. -/
def dcache_flush_range (start size : Nat) : List Event :=
  (lineAddrs (start &&& 0xFFFFFFFFFFFFFFC0) (start + size)).map (fun a => .dcFlushLine a)
    ++ [.dsb, .isb]

/-- `dcache_invalidate_range` from `src/rknpu_dev.rs`: same loop with
`dc ivac` per line, then `dsb ish; isb`. -/
def dcache_invalidate_range (start size : Nat) : List Event :=
  (lineAddrs (start &&& 0xFFFFFFFFFFFFFFC0) (start + size)).map (fun a => .dcInvLine a)
    ++ [.dsb, .isb]

/-- The PC data-amount computation of `job_commit_pc`
(`src/rknpu_dev.rs` lines 264-267), in 32-bit arithmetic:
`(regcfg_amount + E + scale - 1) / scale - 1`, where `E` is the external
constant `RKNPU_PC_DATA_EXTRA_AMOUNT` of the `rk3588_rs` crate (the spec
keeps it abstract as `FIXED_EXTRA_AMOUNT`, so it is a parameter here). -/
def dataAmount (E scale regcfg : Nat) : Nat :=
  (regcfg + E + scale - 1) % 2 ^ 32 / scale - 1

/-- The PC task-control computation of `job_commit_pc`
(`src/rknpu_dev.rs` line 278): `((0x6 | task_pp_en) << pc_task_number_bits)
| task_number`, where `task_pp_en` is 1 when `flags & RKNPU_JOB_PINGPONG`
is nonzero.  `PP` is the external flag constant `RKNPU_JOB_PINGPONG` of the
`rk3588_rs` crate, kept as a parameter; the `% 2^32` models the u32 width of
the shift. -/
def pcTaskControlVal (PP bits flags task_number : Nat) : Nat :=
  (((0x6 ||| (if flags &&& PP ≠ 0 then 1 else 0)) <<< bits) % 2 ^ 32) ||| task_number

/-- `RknpuDev::job_commit_pc` from `src/rknpu_dev.rs`.  `mem i` is the task
descriptor at index `i` from the translated task base, `taskBase` the
translated base address (`task_base.is_null()` is `taskBase = 0`).  Returns
the result together with the trace of observable actions, in program
order. -/
def job_commit_pc (E PP : Nat) (cfg : RknpuConfig) (mem : Nat → RknpuTask)
    (taskBase : Nat) (submit : RknpuSubmit) : Except RkNpuError Unit × List Event :=
  if taskBase = 0 then (.error .InvalidTaskAddress, [])
  else
    let task_end := submit.task_start + submit.task_number - 1
    let first := mem submit.task_start
    let last := mem task_end
    let reg_addr_kva := (first.regcmd_addr + 0xffff000000000000) % 2 ^ 64
    (.ok (),
      dcache_flush_range taskBase 1024
        ++ dcache_flush_range reg_addr_kva (8 * 1024 * 1024)
        ++ [.coreWrite .pc_data_addr 0x1,
            .coreWrite .pc_data_addr (first.regcmd_addr % 2 ^ 32),
            .coreWrite .pc_data_amount
              (dataAmount E cfg.pc_data_amount_scale first.regcfg_amount),
            .coreWrite .int_mask last.int_mask,
            .coreWrite .int_clear first.int_clear,
            .coreWrite .pc_task_control
              (pcTaskControlVal PP cfg.pc_task_number_bits submit.flags
                submit.task_number),
            .coreWrite .pc_op_en 0x1,
            .coreWrite .pc_op_en 0x0])

/-- The poll loop of `RknpuDev::wait_job_done` (`src/rknpu_dev.rs`):
`status i` is the value `int_status` reads at the i-th poll, `r` the
remaining iteration budget.  A read of `0x100` or `0x200` invalidates the
result range and writes the status back to `int_clear`; otherwise the loop
spins 100 times and retries. -/
def waitLoop (status : Nat → Nat) (pool : Nat) : Nat → Nat → Except RkNpuError Unit × List Event
  | _, 0 => (.error .TaskTimeout, [])
  | i, r + 1 =>
    if status i = 0x100 ∨ status i = 0x200 then
      (.ok (), [.pollStatus (status i)]
        ++ dcache_invalidate_range pool (8 * 1024 * 1024)
        ++ [.coreWrite .int_clear (status i)])
    else
      ((waitLoop status pool (i + 1) r).1,
        .pollStatus (status i) :: .spin 100 :: (waitLoop status pool (i + 1) r).2)

/-- `RknpuDev::wait_job_done` from `src/rknpu_dev.rs`:
`max_iterations = timeout_ms * 100` polls of `int_status`. -/
def wait_job_done (timeout_ms : Nat) (status : Nat → Nat) (pool : Nat) :
    Except RkNpuError Unit × List Event :=
  waitLoop status pool 0 (timeout_ms * 100)

/-- `RknpuDev::rknpu_submit_ioctl` from `src/rknpu_dev.rs`: validate
`task_number` then `task_obj_addr`, translate the task base with the
supplied `dma_to_kernel`, commit the job, then wait with the effective
timeout (`submit.timeout` if positive, else 5000 ms) on the pool starting
`0x1000` below the task base. -/
def rknpu_submit_ioctl (E PP : Nat) (cfg : RknpuConfig) (mem : Nat → RknpuTask)
    (dma_to_kernel : Nat → Nat) (status : Nat → Nat) (submit : RknpuSubmit) :
    Except RkNpuError Unit × List Event :=
  if submit.task_number = 0 then (.error .InvalidInput, [])
  else if submit.task_obj_addr = 0 then (.error .InvalidTaskAddress, [])
  else
    let taskBase := dma_to_kernel submit.task_obj_addr
    match job_commit_pc E PP cfg mem taskBase submit with
    | (.error e, tr) => (.error e, tr)
    | (.ok _, tr) =>
      let timeout := if submit.timeout > 0 then submit.timeout else 5000
      let w := wait_job_done timeout status (taskBase - 0x1000)
      (w.1, tr ++ w.2)

/-- `RknpuDev::initialize` from `src/rknpu_dev.rs` (named `init_dev` here):
fail with `InvalidInput` when `pm_base` is null, otherwise power on NPU1,
NPU2, NPU, NPUTOP in that order, then check the version register (read as
`version`) against `RK3588_NPU_VERSION`. -/
def init_dev (pm_base version : Nat) : Except RkNpuError Unit × List Event :=
  if pm_base = 0 then (.error .InvalidInput, [])
  else
    ((if version = RK3588_NPU_VERSION then .ok () else .error .UnsupportedVersion),
      [.pdOn .NPU1, .pdOn .NPU2, .pdOn .NPU, .pdOn .NPUTOP])

/-- `RknpuDev::clear_interrupts` from `src/rknpu_dev.rs`. -/
def clear_interrupts : List Event :=
  [.coreWrite .int_clear INT_CLEAR_VALUE]

/-- `RknpuDev::reset_axi` from `src/rknpu_dev.rs`: assert then deassert the
NPU0 AXI reset bit through the write-protected `softrst_con_npu` register
(always returns `Ok`, so only the trace is modelled). -/
def reset_axi : List Event :=
  [.cruWrite ((1 <<< (NPU0_AXI_SRST + WRITE_MASK_SHIFT)) ||| (1 <<< NPU0_AXI_SRST)),
   .delayUs 10,
   .cruWrite ((1 <<< (NPU0_AXI_SRST + WRITE_MASK_SHIFT)) ||| 0),
   .delayUs 5]

/-- `RknpuDev::reset_ahb` from `src/rknpu_dev.rs`: same pulse for the NPU0
AHB reset bit. -/
def reset_ahb : List Event :=
  [.cruWrite ((1 <<< (NPU0_AHB_SRST + WRITE_MASK_SHIFT)) ||| (1 <<< NPU0_AHB_SRST)),
   .delayUs 10,
   .cruWrite ((1 <<< (NPU0_AHB_SRST + WRITE_MASK_SHIFT)) ||| 0),
   .delayUs 5]

/-- `RknpuDev::soft_reset` from `src/rknpu_dev.rs`: clear interrupts, AXI
reset, AHB reset, 10 us delay, then (after the `pm_base` null check) power
off NPU1, NPU2, NPU, NPUTOP, wait 1 ms, and power on NPUTOP, NPU, NPU1,
NPU2. -/
def soft_reset (pm_base : Nat) : Except RkNpuError Unit × List Event :=
  let head := clear_interrupts ++ reset_axi ++ reset_ahb ++ [.delayUs 10]
  if pm_base = 0 then (.error .InvalidInput, head)
  else
    (.ok (),
      head ++ [.pdOff .NPU1, .pdOff .NPU2, .pdOff .NPU, .pdOff .NPUTOP,
               .delayUs 1000,
               .pdOn .NPUTOP, .pdOn .NPU, .pdOn .NPU1, .pdOn .NPU2])

/-- Action flags, from `src/types.rs`. -/
inductive RknpuActionFlag where
  | GetHwVersion
  | GetDrvVersion
  | GetFreq
  | SetFreq
  | GetVolt
  | SetVolt
  | ActReset
  | GetBwPriority
  | SetBwPriority
  | GetBwExpect
  | SetBwExpect
  | GetBwTw
  | SetBwTw
  | ActClrTotalRwAmount
  | GetDtWrAmount
  | GetDtRdAmount
  | GetWtRdAmount
  | GetTotalRwAmount
  | GetIommuEn
  | SetProcNice
  | PowerOn
  | PowerOff
  | GetTotalSramSize
  | GetFreeSramSize
  deriving DecidableEq, Repr

/-- `impl From<u32> for RknpuActionFlag` from `src/types.rs`: the Rust
conversion panics on any value other than 0..=23; the panic is modelled as
`none`. -/
def rknpuActionFlagFromU32 : Nat → Option RknpuActionFlag
  | 0 => some .GetHwVersion
  | 1 => some .GetDrvVersion
  | 2 => some .GetFreq
  | 3 => some .SetFreq
  | 4 => some .GetVolt
  | 5 => some .SetVolt
  | 6 => some .ActReset
  | 7 => some .GetBwPriority
  | 8 => some .SetBwPriority
  | 9 => some .GetBwExpect
  | 10 => some .SetBwExpect
  | 11 => some .GetBwTw
  | 12 => some .SetBwTw
  | 13 => some .ActClrTotalRwAmount
  | 14 => some .GetDtWrAmount
  | 15 => some .GetDtRdAmount
  | 16 => some .GetWtRdAmount
  | 17 => some .GetTotalRwAmount
  | 18 => some .GetIommuEn
  | 19 => some .SetProcNice
  | 20 => some .PowerOn
  | 21 => some .PowerOff
  | 22 => some .GetTotalSramSize
  | 23 => some .GetFreeSramSize
  | _ => none

/-- `RknpuDev::rknpu_action_ioctl` from `src/rknpu_dev.rs`:
`GetHwVersion` reads the version register into `action.value` and succeeds,
`ActReset` succeeds (the reset call is commented out), every other
recognized flag returns `InvalidInput`; an unrecognized flag value makes the
`From` conversion panic, modelled as `none`. -/
def rknpu_action_ioctl (version flags : Nat) : Option (Except RkNpuError Nat) :=
  match rknpuActionFlagFromU32 flags with
  | none => none
  | some .GetHwVersion => some (.ok version)
  | some .ActReset => some (.ok 0)
  | some _ => some (.error .InvalidInput)

/-- Core-register writes of a trace, in order. -/
def coreWrites (tr : List Event) : List (CoreReg × Nat) :=
  tr.filterMap fun e =>
    match e with
    | .coreWrite r v => some (r, v)
    | _ => none

/-- Values written to one core register by a trace, in order. -/
def writesTo (r : CoreReg) (tr : List Event) : List Nat :=
  tr.filterMap fun e =>
    match e with
    | .coreWrite r' v => if r' = r then some v else none
    | _ => none

/-- Values written to `softrst_con_npu` by a trace, in order. -/
def cruWrites (tr : List Event) : List Nat :=
  tr.filterMap fun e =>
    match e with
    | .cruWrite v => some v
    | _ => none

/-- Power domains switched on by a trace, in order. -/
def pdOns (tr : List Event) : List PDom :=
  tr.filterMap fun e =>
    match e with
    | .pdOn d => some d
    | _ => none

/-- Power domains switched off by a trace, in order. -/
def pdOffs (tr : List Event) : List PDom :=
  tr.filterMap fun e =>
    match e with
    | .pdOff d => some d
    | _ => none

/-- The power-cycle phase of a trace: power-domain transitions together
with delays of at least 1 ms (the shorter reset-settling delays are
dropped). -/
def powerPhase (tr : List Event) : List Event :=
  tr.filter fun e =>
    match e with
    | .pdOn _ => true
    | .pdOff _ => true
    | .delayUs d => 1000 ≤ d
    | _ => false

/-- Number of `int_status` polls recorded in a trace. -/
def countPolls (tr : List Event) : Nat :=
  tr.countP fun e =>
    match e with
    | .pollStatus _ => true
    | _ => false

/-- The poll/spin events produced by `k` consecutive unsuccessful polls
starting at poll number `i`. -/
def pollsBefore (status : Nat → Nat) : Nat → Nat → List Event
  | _, 0 => []
  | i, k + 1 => .pollStatus (status i) :: .spin 100 :: pollsBefore status (i + 1) k

/-! ### Trace helper lemmas -/

@[simp]
lemma coreWrites_nil : coreWrites [] = [] := rfl

@[simp]
lemma coreWrites_append (t1 t2 : List Event) :
    coreWrites (t1 ++ t2) = coreWrites t1 ++ coreWrites t2 :=
  List.filterMap_append t1 t2 _

@[simp]
lemma coreWrites_flushLines (l : List Nat) :
    coreWrites (l.map (fun a => Event.dcFlushLine a)) = [] := by
  induction l with
  | nil => rfl
  | cons a l ih => simp [coreWrites, List.filterMap_cons]

@[simp]
lemma coreWrites_invLines (l : List Nat) :
    coreWrites (l.map (fun a => Event.dcInvLine a)) = [] := by
  induction l with
  | nil => rfl
  | cons a l ih => simp [coreWrites, List.filterMap_cons]

@[simp]
lemma coreWrites_flush_range (s n : Nat) :
    coreWrites (dcache_flush_range s n) = [] := by
  simp [dcache_flush_range, coreWrites, List.filterMap_cons]

@[simp]
lemma coreWrites_inv_range (s n : Nat) :
    coreWrites (dcache_invalidate_range s n) = [] := by
  simp [dcache_invalidate_range, coreWrites, List.filterMap_cons]

/-- C1: for a valid submission reaching the commit step (positive task
count, non-null translated task base), `job_commit_pc` performs exactly the
NPU-core register writes: address-mode switch (`pc_data_addr := 1`), low 32
bits of the first descriptor's `regcmd_addr` to `pc_data_addr`, the computed
data amount to `pc_data_amount`, the last descriptor's `int_mask` to
`int_mask`, the first descriptor's `int_clear` to `int_clear`, the computed
task-control word to `pc_task_control`, then the enable pulse
`pc_op_en := 1; pc_op_en := 0` — in this order, with no other register
writes interleaved. -/
theorem c1_commit_register_order (E PP : Nat) (cfg : RknpuConfig)
    (mem : Nat → RknpuTask) (taskBase : Nat) (submit : RknpuSubmit)
    (hbase : taskBase ≠ 0) (htn : 0 < submit.task_number) :
    coreWrites (job_commit_pc E PP cfg mem taskBase submit).2 =
      [(.pc_data_addr, 0x1),
       (.pc_data_addr, (mem submit.task_start).regcmd_addr % 2 ^ 32),
       (.pc_data_amount,
         dataAmount E cfg.pc_data_amount_scale (mem submit.task_start).regcfg_amount),
       (.int_mask, (mem (submit.task_start + submit.task_number - 1)).int_mask),
       (.int_clear, (mem submit.task_start).int_clear),
       (.pc_task_control,
         pcTaskControlVal PP cfg.pc_task_number_bits submit.flags submit.task_number),
       (.pc_op_en, 0x1),
       (.pc_op_en, 0x0)] := by
  unfold job_commit_pc
  rw [if_neg hbase]
  dsimp only
  simp only [coreWrites_append, coreWrites_flush_range, List.nil_append]
  simp [coreWrites, List.filterMap_cons]

/-- Example task descriptor used by the concrete witnesses (the E2E
scenario of the spec: `regcmd_addr = 0x1000`, `regcfg_amount = 50`,
`int_clear = 0x1ffff`, `int_mask = 0x3`). -/
def exTask : RknpuTask :=
  { regcmd_addr := 0x1000, regcfg_amount := 50, int_clear := 0x1ffff, int_mask := 0x3 }

/-- Example descriptor memory used by the concrete witnesses. -/
def exMem : Nat → RknpuTask := fun _ => exTask

/-- Example submission used by the concrete witnesses: one task starting at
index 0, no flags, default timeout, task list at physical address 0x100. -/
def exSubmit : RknpuSubmit :=
  { flags := 0, timeout := 0, task_start := 0, task_number := 1, task_obj_addr := 0x100 }

/-- Witness for C1 at the concrete E2E inputs. -/
theorem c1_commit_register_order_witness :
    coreWrites (job_commit_pc 4 2 RknpuConfig.RK3588 exMem 0x1100 exSubmit).2 =
      [(.pc_data_addr, 0x1),
       (.pc_data_addr, (exMem exSubmit.task_start).regcmd_addr % 2 ^ 32),
       (.pc_data_amount,
         dataAmount 4 RknpuConfig.RK3588.pc_data_amount_scale
           (exMem exSubmit.task_start).regcfg_amount),
       (.int_mask, (exMem (exSubmit.task_start + exSubmit.task_number - 1)).int_mask),
       (.int_clear, (exMem exSubmit.task_start).int_clear),
       (.pc_task_control,
         pcTaskControlVal 2 RknpuConfig.RK3588.pc_task_number_bits exSubmit.flags
           exSubmit.task_number),
       (.pc_op_en, 0x1),
       (.pc_op_en, 0x0)] :=
  c1_commit_register_order 4 2 RknpuConfig.RK3588 exMem 0x1100 exSubmit
    (by decide) (by decide)

/-- C3: a submission with `task_number = 0` is rejected with `InvalidInput`,
one with `task_number > 0` and `task_obj_addr = 0` is rejected with
`InvalidTaskAddress`, and when both fields are zero the `task_number` check
wins; in all three cases the call produces an empty trace, hence no
register write. -/
theorem c3_validation_precedes_mutation (E PP : Nat) (cfg : RknpuConfig)
    (mem : Nat → RknpuTask) (dma : Nat → Nat) (status : Nat → Nat)
    (submit : RknpuSubmit) :
    (submit.task_number = 0 →
      rknpu_submit_ioctl E PP cfg mem dma status submit = (.error .InvalidInput, [])) ∧
    (submit.task_number ≠ 0 → submit.task_obj_addr = 0 →
      rknpu_submit_ioctl E PP cfg mem dma status submit = (.error .InvalidTaskAddress, [])) ∧
    (submit.task_number = 0 → submit.task_obj_addr = 0 →
      rknpu_submit_ioctl E PP cfg mem dma status submit = (.error .InvalidInput, [])) := by
  refine ⟨fun h0 => ?_, fun h0 h1 => ?_, fun h0 _ => ?_⟩
  · simp [rknpu_submit_ioctl, h0]
  · simp [rknpu_submit_ioctl, h0, h1]
  · simp [rknpu_submit_ioctl, h0]

/-- Witness for C3 at concrete rejected submissions. -/
theorem c3_validation_precedes_mutation_witness :
    rknpu_submit_ioctl 4 2 RknpuConfig.RK3588 exMem (fun a => a) (fun _ => 0)
        { flags := 0, timeout := 0, task_start := 0, task_number := 0, task_obj_addr := 0x100 }
      = (.error .InvalidInput, []) ∧
    rknpu_submit_ioctl 4 2 RknpuConfig.RK3588 exMem (fun a => a) (fun _ => 0)
        { flags := 0, timeout := 0, task_start := 0, task_number := 3, task_obj_addr := 0 }
      = (.error .InvalidTaskAddress, []) ∧
    rknpu_submit_ioctl 4 2 RknpuConfig.RK3588 exMem (fun a => a) (fun _ => 0)
        { flags := 0, timeout := 0, task_start := 0, task_number := 0, task_obj_addr := 0 }
      = (.error .InvalidInput, []) :=
  ⟨(c3_validation_precedes_mutation 4 2 RknpuConfig.RK3588 exMem (fun a => a) (fun _ => 0) _).1
      rfl,
   (c3_validation_precedes_mutation 4 2 RknpuConfig.RK3588 exMem (fun a => a) (fun _ => 0) _).2.1
      (by decide) rfl,
   (c3_validation_precedes_mutation 4 2 RknpuConfig.RK3588 exMem (fun a => a) (fun _ => 0) _).2.2
      rfl rfl⟩

/-- C6: each reset pulse performs exactly two writes to `softrst_con_npu`:
assert `(1 <<< (b+16)) ||| (1 <<< b)` then deassert `(1 <<< (b+16)) ||| 0`,
with `b = NPU0_AXI_SRST` for the AXI pulse and `b = NPU0_AHB_SRST` for the
AHB pulse; in both writes no bit other than `b` and its write-enable bit
`b + 16` is set. -/
theorem c6_reset_write_protect_encoding :
    cruWrites reset_axi =
      [(1 <<< (NPU0_AXI_SRST + 16)) ||| (1 <<< NPU0_AXI_SRST),
       (1 <<< (NPU0_AXI_SRST + 16)) ||| 0] ∧
    cruWrites reset_ahb =
      [(1 <<< (NPU0_AHB_SRST + 16)) ||| (1 <<< NPU0_AHB_SRST),
       (1 <<< (NPU0_AHB_SRST + 16)) ||| 0] ∧
    (∀ v ∈ cruWrites reset_axi, ∀ j < 32,
      j ≠ NPU0_AXI_SRST → j ≠ NPU0_AXI_SRST + 16 → v.testBit j = false) ∧
    (∀ v ∈ cruWrites reset_ahb, ∀ j < 32,
      j ≠ NPU0_AHB_SRST → j ≠ NPU0_AHB_SRST + 16 → v.testBit j = false) := by
  decide

/-- C2 counterexample: at the concrete device (non-null `pm_base = 1`,
matching version register), `init_dev` powers up NPU1, NPU2, NPU, NPUTOP
and disables nothing, while `soft_reset` powers the domains off in that
same bring-up order — not in reverse — and powers them back on in the order
NPUTOP, NPU, NPU1, NPU2 — not in the original bring-up order.  This refutes
both the reverse-order power-off and the original-order restore asserted by
the claim, as well as the claimed disabling of unneeded domains. -/
theorem c2_power_sequencing_counterexample :
    pdOns (init_dev 1 RK3588_NPU_VERSION).2 = [.NPU1, .NPU2, .NPU, .NPUTOP] ∧
    pdOffs (init_dev 1 RK3588_NPU_VERSION).2 = [] ∧
    pdOffs (soft_reset 1).2 = [.NPU1, .NPU2, .NPU, .NPUTOP] ∧
    pdOffs (soft_reset 1).2 ≠ (pdOns (init_dev 1 RK3588_NPU_VERSION).2).reverse ∧
    pdOns (soft_reset 1).2 = [.NPUTOP, .NPU, .NPU1, .NPU2] ∧
    pdOns (soft_reset 1).2 ≠ pdOns (init_dev 1 RK3588_NPU_VERSION).2 := by
  decide

/-- C2 amended: `init_dev` powers up, unconditionally and independent of the
configured core mask, the domains NPU1, NPU2, NPU, NPUTOP in that order and
disables no domain; `soft_reset`'s power-cycle turns the four domains off in
that same bring-up order, waits 1 millisecond, then powers them on in the
order NPUTOP, NPU, NPU1, NPU2 (the reverse of its own power-off order, not
the `init_dev` order). -/
theorem c2_power_sequencing_amended (pm_base version : Nat) (h : pm_base ≠ 0) :
    (init_dev pm_base version).2 = [.pdOn .NPU1, .pdOn .NPU2, .pdOn .NPU, .pdOn .NPUTOP] ∧
    pdOffs (init_dev pm_base version).2 = [] ∧
    powerPhase (soft_reset pm_base).2 =
      [.pdOff .NPU1, .pdOff .NPU2, .pdOff .NPU, .pdOff .NPUTOP,
       .delayUs 1000,
       .pdOn .NPUTOP, .pdOn .NPU, .pdOn .NPU1, .pdOn .NPU2] := by
  unfold init_dev soft_reset
  rw [if_neg h, if_neg h]
  refine ⟨rfl, rfl, ?_⟩
  decide

/-- Witness for the amended C2 at a concrete non-null `pm_base`. -/
theorem c2_power_sequencing_amended_witness :
    (init_dev 1 RK3588_NPU_VERSION).2 =
      [.pdOn .NPU1, .pdOn .NPU2, .pdOn .NPU, .pdOn .NPUTOP] ∧
    pdOffs (init_dev 1 RK3588_NPU_VERSION).2 = [] ∧
    powerPhase (soft_reset 1).2 =
      [.pdOff .NPU1, .pdOff .NPU2, .pdOff .NPU, .pdOff .NPUTOP,
       .delayUs 1000,
       .pdOn .NPUTOP, .pdOn .NPU, .pdOn .NPU1, .pdOn .NPU2] :=
  c2_power_sequencing_amended 1 RK3588_NPU_VERSION (by decide)

/-- The `From<u32>` conversion panics (modelled `none`) on every value of
24 or more. -/
lemma rknpuActionFlagFromU32_ge24 (v : Nat) (h : 24 ≤ v) :
    rknpuActionFlagFromU32 v = none := by
  obtain ⟨k, rfl⟩ := Nat.exists_eq_add_of_le h
  unfold rknpuActionFlagFromU32
  split
  all_goals first
    | rfl
    | omega

/-- C10: `rknpu_action_ioctl` returns `InvalidInput` for the recognized but
unsupported flag values 1..5 and 7..23, panics (modelled as `none`) for
every flag value of 24 or more, and is non-panicking exactly on the flag
values 0..23. -/
theorem c10_action_totality (version flags : Nat) :
    ((1 ≤ flags ∧ flags ≤ 5) ∨ (7 ≤ flags ∧ flags ≤ 23) →
      rknpu_action_ioctl version flags = some (.error .InvalidInput)) ∧
    (24 ≤ flags → rknpu_action_ioctl version flags = none) ∧
    (flags ≤ 23 → rknpu_action_ioctl version flags ≠ none) := by
  refine ⟨fun h => ?_, fun h => ?_, fun h => ?_⟩
  · have h5 : flags ≤ 23 := by omega
    interval_cases flags <;>
      first
        | rfl
        | omega
  · simp [rknpu_action_ioctl, rknpuActionFlagFromU32_ge24 flags h]
  · interval_cases flags <;>
      simp [rknpu_action_ioctl, rknpuActionFlagFromU32]

/-- Witness for C10 at the concrete flag values 3 (unsupported), 30
(panicking) and 0 (supported). -/
theorem c10_action_totality_witness :
    rknpu_action_ioctl 0x46495245 3 = some (.error .InvalidInput) ∧
    rknpu_action_ioctl 0x46495245 30 = none ∧
    rknpu_action_ioctl 0x46495245 0 ≠ none :=
  ⟨(c10_action_totality 0x46495245 3).1 (by omega),
   (c10_action_totality 0x46495245 30).2.1 (by omega),
   (c10_action_totality 0x46495245 0).2.2 (by omega)⟩

/-! ### Poll-loop lemmas -/

/-- If the first completion code appears at the k-th poll within the budget,
the poll loop succeeds with the trace: k unsuccessful poll/spin pairs, the
successful poll, the result-range invalidation, then the write of the
observed status to `int_clear`. -/
lemma waitLoop_done (status : Nat → Nat) (pool : Nat) :
    ∀ k i r, k < r →
      (status (i + k) = 0x100 ∨ status (i + k) = 0x200) →
      (∀ j, j < k → ¬(status (i + j) = 0x100 ∨ status (i + j) = 0x200)) →
      waitLoop status pool i r =
        (.ok (), pollsBefore status i k
          ++ [.pollStatus (status (i + k))]
          ++ dcache_invalidate_range pool (8 * 1024 * 1024)
          ++ [.coreWrite .int_clear (status (i + k))]) := by
  intro k
  induction k with
  | zero =>
    intro i r hr hd _
    match r, hr with
    | r + 1, _ =>
      simp only [Nat.add_zero] at hd
      simp [waitLoop, hd, pollsBefore]
  | succ k ih =>
    intro i r hr hd hmin
    match r, hr with
    | r + 1, _ =>
      have hnd : ¬(status i = 0x100 ∨ status i = 0x200) := by
        have := hmin 0 (Nat.succ_pos k)
        simpa using this
      have hd' : status (i + 1 + k) = 0x100 ∨ status (i + 1 + k) = 0x200 := by
        rw [show i + 1 + k = i + (k + 1) by omega]; exact hd
      have hmin' : ∀ j, j < k →
          ¬(status (i + 1 + j) = 0x100 ∨ status (i + 1 + j) = 0x200) := by
        intro j hj
        rw [show i + 1 + j = i + (j + 1) by omega]
        exact hmin (j + 1) (by omega)
      have hrec := ih (i + 1) r (by omega) hd' hmin'
      simp only [waitLoop, if_neg hnd, hrec, pollsBefore]
      rw [show i + 1 + k = i + (k + 1) by omega]
      simp

/-- If no completion code appears within the remaining budget, the poll
loop exhausts it and times out; its trace is exactly the unsuccessful
poll/spin pairs. -/
lemma waitLoop_timeout (status : Nat → Nat) (pool : Nat) :
    ∀ r i, (∀ j, j < r → ¬(status (i + j) = 0x100 ∨ status (i + j) = 0x200)) →
      waitLoop status pool i r = (.error .TaskTimeout, pollsBefore status i r) := by
  intro r
  induction r with
  | zero => intro i _; rfl
  | succ r ih =>
    intro i hmin
    have hnd : ¬(status i = 0x100 ∨ status i = 0x200) := by
      have := hmin 0 (Nat.succ_pos r)
      simpa using this
    have hmin' : ∀ j, j < r →
        ¬(status (i + 1 + j) = 0x100 ∨ status (i + 1 + j) = 0x200) := by
      intro j hj
      rw [show i + 1 + j = i + (j + 1) by omega]
      exact hmin (j + 1) (by omega)
    simp [waitLoop, if_neg hnd, ih (i + 1) hmin', pollsBefore]

/-- The poll loop succeeds exactly when some poll within the budget reads
one of the two completion codes. -/
lemma waitLoop_ok_iff (status : Nat → Nat) (pool : Nat) :
    ∀ r i, (waitLoop status pool i r).1 = .ok () ↔
      ∃ k, k < r ∧ (status (i + k) = 0x100 ∨ status (i + k) = 0x200) := by
  intro r
  induction r with
  | zero =>
    intro i
    simp [waitLoop]
  | succ r ih =>
    intro i
    by_cases hd : status i = 0x100 ∨ status i = 0x200
    · constructor
      · intro _
        exact ⟨0, Nat.succ_pos r, by simpa using hd⟩
      · intro _
        simp [waitLoop, if_pos hd]
    · simp only [waitLoop, if_neg hd]
      rw [show (((waitLoop status pool (i + 1) r).1,
            Event.pollStatus (status i) :: Event.spin 100 ::
              (waitLoop status pool (i + 1) r).2).1)
          = (waitLoop status pool (i + 1) r).1 from rfl]
      rw [ih (i + 1)]
      constructor
      · rintro ⟨k, hk, hdk⟩
        refine ⟨k + 1, by omega, ?_⟩
        rw [show i + (k + 1) = i + 1 + k by omega]
        exact hdk
      · rintro ⟨k, hk, hdk⟩
        match k with
        | 0 => exact absurd (by simpa using hdk) hd
        | k + 1 =>
          refine ⟨k, by omega, ?_⟩
          rw [show i + 1 + k = i + (k + 1) by omega]
          exact hdk

/-- A run of `k` unsuccessful polls records exactly `k` status reads. -/
lemma countPolls_pollsBefore (status : Nat → Nat) :
    ∀ k i, countPolls (pollsBefore status i k) = k := by
  intro k
  induction k with
  | zero => intro i; rfl
  | succ k ih =>
    intro i
    simp [pollsBefore, countPolls, List.countP_cons] at ih ⊢
    exact ih (i + 1)

/-- C5: when the first completion code (`0x100` or `0x200`) appears at poll
`i` within the budget, `wait_job_done` returns success and its trace is the
`i` unsuccessful polls (none of which short-circuits the wait, whatever
nonzero values they read), the successful poll, the cache invalidation of
the result range, and then — after the invalidation — the write of the
observed status value to `int_clear`; moreover every successful run of
`wait_job_done` observed a poll reading `0x100` or `0x200` within the
budget. -/
theorem c5_completion_codes (t : Nat) (status : Nat → Nat) (pool i : Nat)
    (hi : i < t * 100)
    (hdone : status i = 0x100 ∨ status i = 0x200)
    (hmin : ∀ j, j < i → status j ≠ 0x100 ∧ status j ≠ 0x200) :
    (wait_job_done t status pool).1 = .ok () ∧
    (wait_job_done t status pool).2 =
      pollsBefore status 0 i
        ++ [.pollStatus (status i)]
        ++ dcache_invalidate_range pool (8 * 1024 * 1024)
        ++ [.coreWrite .int_clear (status i)] ∧
    (∀ t2 st2 p2, (wait_job_done t2 st2 p2).1 = .ok () →
      ∃ k, k < t2 * 100 ∧ (st2 k = 0x100 ∨ st2 k = 0x200)) := by
  have h1 := waitLoop_done status pool i 0 (t * 100) (by simpa using hi)
    (by simpa using hdone)
    (fun j hj => by simpa [not_or] using hmin j hj)
  refine ⟨?_, ?_, ?_⟩
  · unfold wait_job_done
    rw [h1]
  · unfold wait_job_done
    rw [h1]
    simp
  · intro t2 st2 p2 hok
    have := (waitLoop_ok_iff st2 p2 (t2 * 100) 0).mp (by unfold wait_job_done at hok; exact hok)
    obtain ⟨k, hk, hdk⟩ := this
    exact ⟨k, hk, by simpa using hdk⟩

/-- Example status source for the C5 witness: two nonzero non-completion
reads (value 7), then `0x100`. -/
def exStatus : Nat → Nat := fun j => if j < 2 then 7 else 0x100

/-- Witness for C5: with `exStatus`, the wait succeeds and the status value
is written back after the invalidation; the two earlier nonzero reads do
not short-circuit the wait. -/
theorem c5_completion_codes_witness :
    (wait_job_done 1 exStatus 0).1 = .ok () ∧
    (wait_job_done 1 exStatus 0).2 =
      pollsBefore exStatus 0 2
        ++ [.pollStatus (exStatus 2)]
        ++ dcache_invalidate_range 0 (8 * 1024 * 1024)
        ++ [.coreWrite .int_clear (exStatus 2)] :=
  ⟨(c5_completion_codes 1 exStatus 0 2 (by decide) (by decide)
      (fun j hj => by interval_cases j <;> exact ⟨by decide, by decide⟩)).1,
   (c5_completion_codes 1 exStatus 0 2 (by decide) (by decide)
      (fun j hj => by interval_cases j <;> exact ⟨by decide, by decide⟩)).2.1⟩

/-- C7: with a status source that never reads a completion code, the wait
polls exactly `timeout_ms * 100` times — in particular at most that many —
and returns `TaskTimeout`. -/
theorem c7_timeout_bound (t : Nat) (status : Nat → Nat) (pool : Nat)
    (h : ∀ j, status j ≠ 0x100 ∧ status j ≠ 0x200) :
    (wait_job_done t status pool).1 = .error .TaskTimeout ∧
    countPolls (wait_job_done t status pool).2 = t * 100 ∧
    countPolls (wait_job_done t status pool).2 ≤ t * 100 := by
  have h1 := waitLoop_timeout status pool (t * 100) 0
    (fun j _ => by simpa [not_or] using h (0 + j))
  unfold wait_job_done
  rw [h1]
  exact ⟨rfl, countPolls_pollsBefore status (t * 100) 0,
    le_of_eq (countPolls_pollsBefore status (t * 100) 0)⟩

/-- Witness for C7 at `timeout_ms = 1` with an always-zero status source:
`TaskTimeout` after exactly 100 polls. -/
theorem c7_timeout_bound_witness :
    (wait_job_done 1 (fun _ => 0) 0).1 = .error .TaskTimeout ∧
    countPolls (wait_job_done 1 (fun _ => 0) 0).2 = 100 ∧
    countPolls (wait_job_done 1 (fun _ => 0) 0).2 ≤ 100 :=
  c7_timeout_bound 1 (fun _ => 0) 0 (fun j => by constructor <;> simp)

/-! ### Per-register write-extraction lemmas -/

@[simp]
lemma writesTo_append (r : CoreReg) (t1 t2 : List Event) :
    writesTo r (t1 ++ t2) = writesTo r t1 ++ writesTo r t2 :=
  List.filterMap_append t1 t2 _

@[simp]
lemma writesTo_flushLines (r : CoreReg) (l : List Nat) :
    writesTo r (l.map (fun a => Event.dcFlushLine a)) = [] := by
  induction l with
  | nil => rfl
  | cons a l ih => simp [writesTo, List.filterMap_cons]

@[simp]
lemma writesTo_invLines (r : CoreReg) (l : List Nat) :
    writesTo r (l.map (fun a => Event.dcInvLine a)) = [] := by
  induction l with
  | nil => rfl
  | cons a l ih => simp [writesTo, List.filterMap_cons]

@[simp]
lemma writesTo_flush_range (r : CoreReg) (s n : Nat) :
    writesTo r (dcache_flush_range s n) = [] := by
  simp [dcache_flush_range, writesTo, List.filterMap_cons]

@[simp]
lemma writesTo_inv_range (r : CoreReg) (s n : Nat) :
    writesTo r (dcache_invalidate_range s n) = [] := by
  simp [dcache_invalidate_range, writesTo, List.filterMap_cons]

/-- Ceiling division on naturals via the add-and-truncate trick:
`(m + s - 1) / s` equals the rational ceiling of `m / s`. -/
lemma ceil_eq_add_sub_one_div (m s : Nat) (hs : 0 < s) :
    ⌈(m : ℚ) / (s : ℚ)⌉ = (((m + s - 1) / s : ℕ) : ℤ) := by
  have hq := Nat.div_add_mod (m + s - 1) s
  have hr : (m + s - 1) % s < s := Nat.mod_lt _ hs
  set q := (m + s - 1) / s with hqdef
  have h1 : s * q ≤ m + s - 1 := Nat.le.intro hq
  have hA : s * q < m + s := by
    generalize hP : s * q = P at h1
    omega
  have hB : m ≤ s * q := by
    have h2 : m + s - 1 < s * q + s := by
      rw [← hq]
      exact Nat.add_lt_add_left hr _
    generalize hP : s * q = P at h2
    omega
  have hs' : (0 : ℚ) < (s : ℚ) := by exact_mod_cast hs
  have hA' : (s : ℚ) * (q : ℚ) < (m : ℚ) + (s : ℚ) := by exact_mod_cast hA
  have hB' : (m : ℚ) ≤ (s : ℚ) * (q : ℚ) := by exact_mod_cast hB
  rw [Int.ceil_eq_iff]
  push_cast
  constructor
  · refine (lt_div_iff₀ hs').mpr ?_
    nlinarith
  · refine (div_le_iff₀ hs').mpr ?_
    nlinarith

/-- C4: for a submission reaching the register-programming step, the single
value written to `pc_data_amount` is `dataAmount`, and — for the
per-variant scale factors 1 and 2, a positive extra-amount constant, and
sums within the 32-bit range — that value equals
`ceil((regcfg_amount + E) / scale) - 1`, with no constraint tying
`regcfg_amount + E` away from 0 or from exact multiples of the scale. -/
theorem c4_data_amount_arithmetic (E PP : Nat) (cfg : RknpuConfig)
    (mem : Nat → RknpuTask) (taskBase : Nat) (submit : RknpuSubmit)
    (hbase : taskBase ≠ 0)
    (hs : cfg.pc_data_amount_scale = 1 ∨ cfg.pc_data_amount_scale = 2)
    (hE : 0 < E)
    (hov : (mem submit.task_start).regcfg_amount + E + cfg.pc_data_amount_scale - 1 < 2 ^ 32) :
    writesTo .pc_data_amount (job_commit_pc E PP cfg mem taskBase submit).2 =
      [dataAmount E cfg.pc_data_amount_scale (mem submit.task_start).regcfg_amount] ∧
    (dataAmount E cfg.pc_data_amount_scale (mem submit.task_start).regcfg_amount : ℤ) =
      ⌈(((mem submit.task_start).regcfg_amount : ℚ) + (E : ℚ)) / (cfg.pc_data_amount_scale : ℚ)⌉
        - 1 := by
  constructor
  · unfold job_commit_pc
    rw [if_neg hbase]
    dsimp only
    simp only [writesTo_append, writesTo_flush_range, List.nil_append]
    simp [writesTo, List.filterMap_cons]
  · set a := (mem submit.task_start).regcfg_amount with ha
    set s := cfg.pc_data_amount_scale with hsdef
    have hspos : 0 < s := by rcases hs with h | h <;> omega
    have hmod : (a + E + s - 1) % 2 ^ 32 = a + E + s - 1 := Nat.mod_eq_of_lt hov
    have hceil : ⌈((a + E : ℕ) : ℚ) / (s : ℚ)⌉ = (((a + E + s - 1) / s : ℕ) : ℤ) := by
      have := ceil_eq_add_sub_one_div (a + E) s hspos
      rw [this]
    have hdivpos : 1 ≤ (a + E + s - 1) / s := by
      rw [Nat.le_div_iff_mul_le hspos]
      omega
    unfold dataAmount
    rw [hmod]
    rw [show (((a : ℚ) + (E : ℚ)) / (s : ℚ)) = (((a + E : ℕ) : ℚ) / (s : ℚ)) by push_cast; ring]
    rw [hceil]
    generalize (a + E + s - 1) / s = x at hdivpos ⊢
    omega

/-- Descriptor memory with `regcfg_amount = 100` (the P3 example). -/
def exMem100 : Nat → RknpuTask := fun _ =>
  { regcmd_addr := 0x1000, regcfg_amount := 100, int_clear := 0x1ffff, int_mask := 0x3 }

/-- Descriptor memory with the boundary value `regcfg_amount = 0`. -/
def exMem0 : Nat → RknpuTask := fun _ =>
  { regcmd_addr := 0x1000, regcfg_amount := 0, int_clear := 0x1ffff, int_mask := 0x3 }

/-- Witness for C4 at `regcfg_amount = 100` and at the boundary
`regcfg_amount = 0`, with `scale = 2` and `E = 4`. -/
theorem c4_data_amount_arithmetic_witness :
    (writesTo .pc_data_amount
        (job_commit_pc 4 2 RknpuConfig.RK3588 exMem100 0x1100 exSubmit).2 =
      [dataAmount 4 RknpuConfig.RK3588.pc_data_amount_scale
        (exMem100 exSubmit.task_start).regcfg_amount] ∧
     (dataAmount 4 RknpuConfig.RK3588.pc_data_amount_scale
        (exMem100 exSubmit.task_start).regcfg_amount : ℤ) =
      ⌈(((exMem100 exSubmit.task_start).regcfg_amount : ℚ) + ((4 : ℕ) : ℚ))
          / (RknpuConfig.RK3588.pc_data_amount_scale : ℚ)⌉ - 1) ∧
    (writesTo .pc_data_amount
        (job_commit_pc 4 2 RknpuConfig.RK3588 exMem0 0x1100 exSubmit).2 =
      [dataAmount 4 RknpuConfig.RK3588.pc_data_amount_scale
        (exMem0 exSubmit.task_start).regcfg_amount] ∧
     (dataAmount 4 RknpuConfig.RK3588.pc_data_amount_scale
        (exMem0 exSubmit.task_start).regcfg_amount : ℤ) =
      ⌈(((exMem0 exSubmit.task_start).regcfg_amount : ℚ) + ((4 : ℕ) : ℚ))
          / (RknpuConfig.RK3588.pc_data_amount_scale : ℚ)⌉ - 1) :=
  ⟨c4_data_amount_arithmetic 4 2 RknpuConfig.RK3588 exMem100 0x1100 exSubmit
      (by decide) (Or.inr rfl) (by decide) (by decide),
   c4_data_amount_arithmetic 4 2 RknpuConfig.RK3588 exMem0 0x1100 exSubmit
      (by decide) (Or.inr rfl) (by decide) (by decide)⟩

/-- C8: for every submission reaching the register-programming step (with a
per-variant task-number field width of 12 or 16 bits), the single value
written to `pc_task_control` is `((0x6 ||| p) <<< task_number_bits) |||
task_number` with `p = 1` exactly when the request's ping-pong flag bit is
set; in particular with 12-bit width, ping-pong set and `task_number = 5`
the value is `((0x6 ||| 1) <<< 12) ||| 5`, and with ping-pong clear it is
`(0x6 <<< 12) ||| 5`. -/
theorem c8_task_control_encoding (E PP : Nat) (cfg : RknpuConfig)
    (mem : Nat → RknpuTask) (taskBase : Nat) (submit : RknpuSubmit)
    (hbase : taskBase ≠ 0)
    (htn : submit.task_number < 2 ^ 32)
    (hbits : cfg.pc_task_number_bits = 12 ∨ cfg.pc_task_number_bits = 16) :
    writesTo .pc_task_control (job_commit_pc E PP cfg mem taskBase submit).2 =
      [((0x6 ||| (if submit.flags &&& PP ≠ 0 then 1 else 0)) <<< cfg.pc_task_number_bits)
        ||| submit.task_number] ∧
    (cfg.pc_task_number_bits = 12 → submit.task_number = 5 → submit.flags &&& PP ≠ 0 →
      writesTo .pc_task_control (job_commit_pc E PP cfg mem taskBase submit).2 =
        [((0x6 ||| 1) <<< 12) ||| 5]) ∧
    (cfg.pc_task_number_bits = 12 → submit.task_number = 5 → submit.flags &&& PP = 0 →
      writesTo .pc_task_control (job_commit_pc E PP cfg mem taskBase submit).2 =
        [(0x6 <<< 12) ||| 5]) := by
  have hlt : ((0x6 ||| (if submit.flags &&& PP ≠ 0 then 1 else 0))
      <<< cfg.pc_task_number_bits) < 2 ^ 32 := by
    rcases hbits with h | h <;> rw [h] <;> split <;> decide
  have hval : pcTaskControlVal PP cfg.pc_task_number_bits submit.flags submit.task_number =
      ((0x6 ||| (if submit.flags &&& PP ≠ 0 then 1 else 0)) <<< cfg.pc_task_number_bits)
        ||| submit.task_number := by
    unfold pcTaskControlVal
    rw [Nat.mod_eq_of_lt hlt]
  have hmain : writesTo .pc_task_control (job_commit_pc E PP cfg mem taskBase submit).2 =
      [((0x6 ||| (if submit.flags &&& PP ≠ 0 then 1 else 0)) <<< cfg.pc_task_number_bits)
        ||| submit.task_number] := by
    unfold job_commit_pc
    rw [if_neg hbase]
    dsimp only
    simp only [writesTo_append, writesTo_flush_range, List.nil_append]
    rw [← hval]
    simp [writesTo, List.filterMap_cons]
  refine ⟨hmain, fun h12 h5 hpp => ?_, fun h12 h5 hpp => ?_⟩
  · rw [hmain, h12, h5, if_pos hpp]
  · rw [hmain, h12, h5, if_neg (by simp [hpp])]
    norm_num

/-- Submission with the ping-pong flag bit set (`flags = PP = 2`) and
`task_number = 5`. -/
def exSubmitPP : RknpuSubmit :=
  { flags := 2, timeout := 0, task_start := 0, task_number := 5, task_obj_addr := 0x100 }

/-- Submission with the ping-pong flag clear and `task_number = 5`. -/
def exSubmitNoPP : RknpuSubmit :=
  { flags := 0, timeout := 0, task_start := 0, task_number := 5, task_obj_addr := 0x100 }

/-- Witness for C8 at the two concrete P4 instances (12-bit width,
`task_number = 5`, ping-pong set and clear). -/
theorem c8_task_control_encoding_witness :
    writesTo .pc_task_control
        (job_commit_pc 4 2 RknpuConfig.RK3588 exMem 0x1100 exSubmitPP).2 =
      [((0x6 ||| 1) <<< 12) ||| 5] ∧
    writesTo .pc_task_control
        (job_commit_pc 4 2 RknpuConfig.RK3588 exMem 0x1100 exSubmitNoPP).2 =
      [(0x6 <<< 12) ||| 5] :=
  ⟨(c8_task_control_encoding 4 2 RknpuConfig.RK3588 exMem 0x1100 exSubmitPP
      (by decide) (by decide) (Or.inl rfl)).2.1 rfl rfl (by decide),
   (c8_task_control_encoding 4 2 RknpuConfig.RK3588 exMem 0x1100 exSubmitNoPP
      (by decide) (by decide) (Or.inl rfl)).2.2 rfl rfl (by decide)⟩

/-- The `& !0x3F` alignment of the cache primitives: on a 64-bit address
the mask `2^64 - 64` rounds down to a multiple of 64. -/
lemma land_align (x : Nat) (hx : x < 2 ^ 64) :
    x &&& 0xFFFFFFFFFFFFFFC0 = x / 64 * 64 := by
  have hshape : x / 64 * 64 = (x >>> 6) <<< 6 := by
    simp [Nat.shiftRight_eq_div_pow, Nat.shiftLeft_eq]
  apply Nat.eq_of_testBit_eq
  intro j
  rw [Nat.testBit_land, hshape, Nat.testBit_shiftLeft, Nat.testBit_shiftRight]
  rcases lt_or_ge j 6 with hj | hj
  · have hm : (0xFFFFFFFFFFFFFFC0 : Nat).testBit j = false := by
      interval_cases j <;> decide
    have h6 : decide (6 ≤ j) = false := by
      simp
      omega
    rw [hm, h6]
    simp
  · rcases lt_or_ge j 64 with hj64 | hj64
    · have hm : (0xFFFFFFFFFFFFFFC0 : Nat).testBit j = true := by
        interval_cases j <;> decide
      have h6 : decide (6 ≤ j) = true := by simp [hj]
      rw [hm, h6, show 6 + (j - 6) = j by omega]
      simp
    · have hxj : x.testBit j = false := by
        apply Nat.testBit_lt_two_pow
        exact lt_of_lt_of_le hx (Nat.pow_le_pow_right (by norm_num) hj64)
      have hxj' : x.testBit (6 + (j - 6)) = false := by
        rw [show 6 + (j - 6) = j by omega]
        exact hxj
      rw [hxj, hxj']
      simp

/-- Membership in the cache-line loop: exactly the addresses congruent to
the (aligned) start, from the start up to (excluding) the end. -/
lemma mem_lineAddrs :
    ∀ n addr e, e - addr ≤ n → ∀ a,
      (a ∈ lineAddrs addr e ↔ a % 64 = addr % 64 ∧ addr ≤ a ∧ a < e) := by
  intro n
  induction n with
  | zero =>
    intro addr e h a
    rw [lineAddrs, if_neg (by omega)]
    simp
    omega
  | succ n ih =>
    intro addr e h a
    rw [lineAddrs]
    by_cases hlt : addr < e
    · rw [if_pos hlt, List.mem_cons, ih (addr + 64) e (by omega) a]
      constructor
      · rintro (rfl | ⟨h1, h2, h3⟩)
        · exact ⟨rfl, le_refl _, hlt⟩
        · exact ⟨by omega, by omega, h3⟩
      · rintro ⟨h1, h2, h3⟩
        rcases eq_or_lt_of_le h2 with rfl | h4
        · exact Or.inl rfl
        · exact Or.inr ⟨by omega, by omega, h3⟩
    · rw [if_neg hlt]
      simp
      omega

/-- C9: each cache primitive touches exactly the 64-byte-aligned line
addresses `a` with `align_down(start) ≤ a < start + size` (stepping line by
line), and its trace is those line operations followed by the
data-synchronization barrier and then the instruction-synchronization
barrier. -/
theorem c9_cache_range_primitives (start size a : Nat) (h1 : start < 2 ^ 64) :
    (Event.dcFlushLine a ∈ dcache_flush_range start size ↔
      a % 64 = 0 ∧ start / 64 * 64 ≤ a ∧ a < start + size) ∧
    (Event.dcInvLine a ∈ dcache_invalidate_range start size ↔
      a % 64 = 0 ∧ start / 64 * 64 ≤ a ∧ a < start + size) ∧
    dcache_flush_range start size =
      (lineAddrs (start / 64 * 64) (start + size)).map (fun x => Event.dcFlushLine x)
        ++ [.dsb, .isb] ∧
    dcache_invalidate_range start size =
      (lineAddrs (start / 64 * 64) (start + size)).map (fun x => Event.dcInvLine x)
        ++ [.dsb, .isb] := by
  have halign := land_align start h1
  have hmem := mem_lineAddrs (start + size) (start / 64 * 64) (start + size) (by omega) a
  have hmod : (start / 64 * 64) % 64 = 0 := Nat.mul_mod_left _ 64
  refine ⟨?_, ?_, ?_, ?_⟩
  · unfold dcache_flush_range
    rw [halign]
    simp only [List.mem_append, List.mem_map, List.mem_cons]
    constructor
    · rintro (⟨x, hx, hx2⟩ | h | h | h) <;> simp_all
    · intro hh
      refine Or.inl ⟨a, ?_, rfl⟩
      rw [hmem]
      omega
  · unfold dcache_invalidate_range
    rw [halign]
    simp only [List.mem_append, List.mem_map, List.mem_cons]
    constructor
    · rintro (⟨x, hx, hx2⟩ | h | h | h) <;> simp_all
    · intro hh
      refine Or.inl ⟨a, ?_, rfl⟩
      rw [hmem]
      omega
  · unfold dcache_flush_range
    rw [halign]
  · unfold dcache_invalidate_range
    rw [halign]

/-- Witness for C9 at `start = 70`, `size = 130`, line address `a = 128`:
the primitives touch exactly the aligned lines 64, 128 and 192. -/
theorem c9_cache_range_primitives_witness :
    (Event.dcFlushLine 128 ∈ dcache_flush_range 70 130 ↔
      128 % 64 = 0 ∧ 70 / 64 * 64 ≤ 128 ∧ 128 < 70 + 130) ∧
    (Event.dcInvLine 128 ∈ dcache_invalidate_range 70 130 ↔
      128 % 64 = 0 ∧ 70 / 64 * 64 ≤ 128 ∧ 128 < 70 + 130) ∧
    dcache_flush_range 70 130 =
      (lineAddrs (70 / 64 * 64) (70 + 130)).map (fun x => Event.dcFlushLine x)
        ++ [.dsb, .isb] ∧
    dcache_invalidate_range 70 130 =
      (lineAddrs (70 / 64 * 64) (70 + 130)).map (fun x => Event.dcInvLine x)
        ++ [.dsb, .isb] :=
  c9_cache_range_primitives 70 130 128 (by norm_num)
